import Mathlib

/-!
Verification development for the PCAN CAN-bus API server
(`pcan_api_server.py`).

The server's handlers are shallowly embedded as pure Lean functions.
Python callbacks into the vendor driver (`PCANBasic`) are modelled by
passing the device's results as explicit arguments and by returning the
list of device-capability calls the handler performs, so that theorems
can speak both about the response produced and about which device calls
were (or were not) made.  Python floats are modelled by `ℚ`; `round(x, 2)`
is modelled by `round2` (rounding to a multiple of `1/100`), which is
exact on every value the decoder produces since they are all integer
multiples of `1/100`.  Machine bytes are `Nat` values in `0..255`.
-/

/-! ### Constants from the vendor `PCANBasic` header -/

/-- `PCAN_ERROR_OK` from the vendor header: operation succeeded. -/
def PCAN_ERROR_OK : Nat := 0x00000

/-- `PCAN_ERROR_QRCVEMPTY` from the vendor header: receive queue empty. -/
def PCAN_ERROR_QRCVEMPTY : Nat := 0x00020

/-- `PCAN_USBBUS1` channel handle value from the vendor header. -/
def PCAN_USBBUS1 : Nat := 0x51

/-- `PCAN_USBBUS2` channel handle value from the vendor header. -/
def PCAN_USBBUS2 : Nat := 0x52

/-- `PCAN_BAUD_500K` baudrate register value from the vendor header. -/
def PCAN_BAUD_500K : Nat := 0x01C

/-- `PCAN_BAUD_250K` baudrate register value from the vendor header. -/
def PCAN_BAUD_250K : Nat := 0x11C

/-- `PCAN_BAUD_125K` baudrate register value from the vendor header. -/
def PCAN_BAUD_125K : Nat := 0x31C

/-- `PCAN_BAUD_1M` baudrate register value from the vendor header. -/
def PCAN_BAUD_1M : Nat := 0x014

/-- `PCAN_MESSAGE_STANDARD.value` from the vendor header. -/
def PCAN_MESSAGE_STANDARD : Nat := 0x00

/-- `PCAN_MESSAGE_RTR.value` from the vendor header. -/
def PCAN_MESSAGE_RTR : Nat := 0x01

/-- `PCAN_MESSAGE_EXTENDED.value` from the vendor header. -/
def PCAN_MESSAGE_EXTENDED : Nat := 0x02

/-! ### Hex-string formatting (Python `f"{n:X}"` / `f"{n:05X}"`) -/

/-- Uppercase hexadecimal rendering of a natural number, no padding,
as Python's `f"{n:X}"`. -/
def toUpperHex (n : Nat) : String :=
  String.mk ((Nat.toDigits 16 n).map Char.toUpper)

/-- Zero-padded uppercase hexadecimal rendering, as Python's
`f"{n:0wX}"`. -/
def padHex (w n : Nat) : String :=
  let s := toUpperHex n
  String.mk (List.replicate (w - s.length) '0') ++ s

/-! ### Hex-string parsing (Python `int(s, 16)`) -/

/-- Value of a single hexadecimal digit character, `none` when the
character is not a hex digit. -/
def hexDigitVal (c : Char) : Option Nat :=
  if '0' ≤ c ∧ c ≤ '9' then some (c.toNat - 48)
  else if 'a' ≤ c ∧ c ≤ 'f' then some (c.toNat - 87)
  else if 'A' ≤ c ∧ c ≤ 'F' then some (c.toNat - 55)
  else none

/-- Left fold accumulating hex digits; `none` as soon as one character
is not a hex digit. -/
def parseHexCore (cs : List Char) : Option Nat :=
  cs.foldl
    (fun acc c =>
      match acc, hexDigitVal c with
      | some a, some d => some (a * 16 + d)
      | _, _ => none)
    (some 0)

/-- Model of Python's `int(s, 16)` on the id strings the API receives:
an optional `0x`/`0X` prefix followed by hex digits.  `none` models the
`ValueError` Python raises on anything else (empty string, bad digit).
Signs, underscores and surrounding whitespace, which `int` also accepts,
are immaterial to the claims and not modelled. -/
def int_base16 (s : String) : Option Nat :=
  let cs :=
    match s.data with
    | '0' :: 'x' :: rest => rest
    | '0' :: 'X' :: rest => rest
    | cs => cs
  if cs.isEmpty then none else parseHexCore cs

/-! ### Rounding to two decimal places -/

/-- Model of Python's `round(x, 2)` on `ℚ`.  Every value the TPMS
decoder rounds is an exact integer multiple of `1/100`, on which any
round-to-nearest (Python's banker's rounding included) is the identity,
so the tie-breaking policy of `round` is immaterial here. -/
def round2 (q : ℚ) : ℚ := (round (q * 100) : ℤ) / 100

/-! ### TPMS decoder (`parse_sensor_data`, source lines 135-171) -/

/-- The decoded TPMS telemetry reading, the dictionary built at source
lines 162-168. -/
structure TpmsReading where
  sensor_id : Nat
  packet_type : Nat
  pressure : Nat
  temperature : ℚ
  battery_watts : ℚ
deriving DecidableEq, Repr

/-- Embedding of `parse_sensor_data` (source lines 135-171).  Bytes come
from `c_ubyte` device data, so they are `Nat`s in `0..255`; under the
`len < 7` guard every index `0..6` is in range, so Python's `data_bytes[i]`
is `getD i 0`.  All arithmetic on byte-range operands is total, so the
source's `except` clause is unreachable on the modelled inputs. -/
def parse_sensor_data (data_bytes : List Nat) : Option TpmsReading :=
  if data_bytes.length < 7 then
    none
  else
    let sensor_id := data_bytes.getD 0 0
    let packet_type := data_bytes.getD 1 0
    let pressure := data_bytes.getD 2 0 <<< 8 ||| data_bytes.getD 3 0
    let temp_raw := data_bytes.getD 5 0 <<< 8 ||| data_bytes.getD 4 0
    let temperature : ℚ := ((temp_raw : ℚ) - 8500) / 100
    let battery_mw := data_bytes.getD 6 0 * 10 + 2000
    let battery_watts : ℚ := (battery_mw : ℚ) / 1000
    some { sensor_id := sensor_id
           packet_type := packet_type
           pressure := pressure
           temperature := round2 temperature
           battery_watts := round2 battery_watts }

/-! ### Server state and device-capability calls -/

/-- The module-level mutable globals of the server (source lines 13-18).
`PCAN_HANDLE` and `BAUDRATE` hold the numeric values of the vendor
constants; `pcan_initialized` is the channel-state flag (`false` is the
spec's `Uninitialized`, `true` its `Ready`). -/
structure ServerState where
  PCAN_HANDLE : Nat
  BAUDRATE : Nat
  IS_FD : Bool
  pcan_initialized : Bool
deriving DecidableEq, Repr

/-- The state the globals hold at process start (source lines 15-18):
`PCAN_USBBUS1`, `PCAN_BAUD_500K`, classic mode, uninitialized. -/
def initial_state : ServerState :=
  { PCAN_HANDLE := PCAN_USBBUS1
    BAUDRATE := PCAN_BAUD_500K
    IS_FD := false
    pcan_initialized := false }

/-- A call into the device capability (the `pcan` object).  `init` is
`pcan.Initialize(handle, baudrate)`; `write`/`writeFD` carry the fully
built message (`ID`, `MSGTYPE`, `LEN`/`DLC`, zero-padded `DATA` array)
handed to `pcan.Write`/`pcan.WriteFD`. -/
inductive DeviceCall where
  | init (handle baudrate : Nat)
  | read (handle : Nat)
  | readFD (handle : Nat)
  | write (handle : Nat) (id msgtype len : Nat) (data : List Nat)
  | writeFD (handle : Nat) (id msgtype dlc : Nat) (data : List Nat)
deriving DecidableEq, Repr

/-- `get_error_text` (source lines 23-29).  The device's
`GetErrorText` lookup is modelled by `errText`: `some t` when the lookup
succeeds (`PCAN_ERROR_OK` tuple status) with decoded text `t`, `none`
when it fails, in which case the source formats the fallback string. -/
def get_error_text (errText : Nat → Option String) (status : Nat) : String :=
  match errText status with
  | some t => t
  | none => "Unknown error code: " ++ padHex 5 status ++ "h"

/-! ### `POST /api/init` (`init_can`, source lines 73-112) -/

/-- The parsed JSON body of an init request; each field is `none` when
the key is absent (the source then uses `dict.get` defaults). -/
structure InitBody where
  channel : Option String
  baudrate : Option String
  is_fd : Option Bool
deriving DecidableEq, Repr

/-- An init response: `ok message` is the 200 success body, `err e c`
the error body with HTTP status `c` (500 or 501). -/
inductive InitResponse where
  | ok (message : String)
  | err (error : String) (code : Nat)
deriving DecidableEq, Repr

/-- The `globals()`-backed table the source resolves symbolic channel
and baudrate names against (source lines 85-86): the vendor constants
imported by `from PCANBasic import *`.  Only the constants relevant to
the API are listed; resolution of any unlisted name falls back to the
caller-supplied default exactly as `globals().get(name, default)` does. -/
def pcanGlobals : List (String × Nat) :=
  [("PCAN_USBBUS1", PCAN_USBBUS1),
   ("PCAN_USBBUS2", PCAN_USBBUS2),
   ("PCAN_BAUD_500K", PCAN_BAUD_500K),
   ("PCAN_BAUD_250K", PCAN_BAUD_250K),
   ("PCAN_BAUD_125K", PCAN_BAUD_125K),
   ("PCAN_BAUD_1M", PCAN_BAUD_1M)]

/-- `globals().get(name, dflt)` on the vendor-constant table. -/
def resolveGlobal (name : String) (dflt : Nat) : Nat :=
  (pcanGlobals.lookup name).getD dflt

/-- The numeric channel handle an init request resolves to (source
line 85): body present → `globals().get(body.channel or "PCAN_USBBUS1",
PCAN_USBBUS1)`; body absent → the current global `PCAN_HANDLE`. -/
def init_resolved_handle (body : Option InitBody) (s : ServerState) : Nat :=
  match body with
  | some b => resolveGlobal (b.channel.getD "PCAN_USBBUS1") PCAN_USBBUS1
  | none => s.PCAN_HANDLE

/-- The numeric baudrate an init request resolves to (source line 86). -/
def init_resolved_baud (body : Option InitBody) (s : ServerState) : Nat :=
  match body with
  | some b => resolveGlobal (b.baudrate.getD "PCAN_BAUD_500K") PCAN_BAUD_500K
  | none => s.BAUDRATE

/-- The value the global `IS_FD` holds after the body is read (source
line 87): body present → `body.get("is_fd", False)`; body absent →
unchanged. -/
def init_effective_fd (body : Option InitBody) (s : ServerState) : Bool :=
  match body with
  | some b => b.is_fd.getD false
  | none => s.IS_FD

/-- Embedding of `init_can` (source lines 73-112).  `devStatus` is the
status `pcan.Initialize` would return if called; the returned list
records the device calls actually made.  A JSON body of `{}` is falsy in
Python and is modelled by `none`, like an absent body. -/
def init_can (body : Option InitBody) (s : ServerState) (devStatus : Nat)
    (errText : Nat → Option String) :
    InitResponse × ServerState × List DeviceCall :=
  let handle_value := init_resolved_handle body s
  let baudrate_value := init_resolved_baud body s
  let s1 : ServerState := { s with IS_FD := init_effective_fd body s }
  if s1.IS_FD then
    (.err "CAN-FD Initialization is not fully implemented in this example." 501,
     s1, [])
  else if devStatus = PCAN_ERROR_OK then
    (.ok ("Channel " ++ padHex 2 handle_value ++
          "h initialized successfully at the specified baudrate."),
     { s1 with PCAN_HANDLE := handle_value, pcan_initialized := true },
     [DeviceCall.init handle_value baudrate_value])
  else
    (.err (get_error_text errText devStatus) 500,
     { s1 with pcan_initialized := false },
     [DeviceCall.init handle_value baudrate_value])

/-! ### `GET /api/read` (`read_message`, source lines 173-219) -/

/-- A device-native CAN message as the `Read`/`ReadFD` ctypes structures
expose it.  `TPCANMsg` carries a `LEN` field, `TPCANMsgFD` a `DLC`
field; one record carrying both models the source's
`can_msg.LEN if not IS_FD else can_msg.DLC` selection.  `DATA` is the
fixed ctypes byte array (8 entries classic, 64 FD). -/
structure CanMsg where
  ID : Nat
  MSGTYPE : Nat
  LEN : Nat
  DLC : Nat
  DATA : List Nat
deriving DecidableEq, Repr

/-- A device timestamp: `TPCANTimestamp` (three sub-fields, classic
`Read`) or `TPCANTimestampFD` (a single 64-bit microsecond counter,
`ReadFD`).  The source distinguishes them by `isinstance`. -/
inductive DeviceTimestamp where
  | classic (micros millis millis_overflow : Nat)
  | fd (value : Nat)
deriving DecidableEq, Repr

/-- The timestamp normalization of source lines 210-213: classic
timestamps are reconstructed as
`micros + 1000*millis + 0x100000000*1000*millis_overflow`, FD
timestamps are taken as their counter value. -/
def ts_value : DeviceTimestamp → Nat
  | .classic micros millis millis_overflow =>
      micros + 1000 * millis + 0x100000000 * 1000 * millis_overflow
  | .fd v => v

/-- The tuple `pcan.Read`/`pcan.ReadFD` returns: a status, the message
and the timestamp (the latter two meaningful when the status is OK). -/
structure ReadResult where
  status : Nat
  msg : CanMsg
  timestamp : DeviceTimestamp
deriving DecidableEq, Repr

/-- The `message` dictionary of a successful read response (source
lines 201-207). -/
structure MsgData where
  id : String
  msg_type : Nat
  len : Nat
  data : List Nat
  parsed : Option TpmsReading
deriving DecidableEq, Repr

/-- A read response: queue empty (200), device error (500), or a
successful read carrying the message data and `timestamp_us`. -/
inductive ReadResponse where
  | emptyQueue
  | deviceError (error : String)
  | ok (message : MsgData) (timestamp_us : Nat)
deriving DecidableEq, Repr

/-- The `timestamp_us` field of a read response, when present. -/
def respTimestamp : ReadResponse → Option Nat
  | .ok _ t => some t
  | _ => none

/-- Embedding of `read_message` (source lines 173-219).  The handler
always performs exactly one device read call (`ReadFD` in FD mode,
`Read` otherwise) before inspecting the status — there is no
`pcan_initialized` guard in the source.  `dev` is the tuple that call
returns.  Python's `data_bytes` comprehension indexes the fixed `DATA`
array, modelled with `getD _ 0` (the array is zero-filled and at least
`LEN`/`DLC` long on well-formed device output). -/
def read_message (s : ServerState) (dev : ReadResult)
    (errText : Nat → Option String) : ReadResponse × List DeviceCall :=
  let calls :=
    [if s.IS_FD then DeviceCall.readFD s.PCAN_HANDLE
     else DeviceCall.read s.PCAN_HANDLE]
  let resp :=
    if dev.status = PCAN_ERROR_QRCVEMPTY then
      ReadResponse.emptyQueue
    else if dev.status ≠ PCAN_ERROR_OK then
      ReadResponse.deviceError (get_error_text errText dev.status)
    else
      let data_len := if s.IS_FD then dev.msg.DLC else dev.msg.LEN
      let data_bytes := (List.range data_len).map (fun i => dev.msg.DATA.getD i 0)
      let parsed_data :=
        if 7 ≤ data_len then parse_sensor_data data_bytes else none
      ReadResponse.ok
        { id := toUpperHex dev.msg.ID
          msg_type := dev.msg.MSGTYPE
          len := data_len
          data := data_bytes
          parsed := parsed_data }
        (ts_value dev.timestamp)
  (resp, calls)

/-! ### `POST /api/write` (`write_message`, source lines 222-268) -/

/-- The parsed JSON body of a write request.  `id` is `none` when the
key is absent (Python then raises `KeyError` at `data['id']`); `data`
defaults to `[]` via `data.get('data', [])`; `extended` and `rtr`
default to `False`.  Byte values are in `0..255` (`c_ubyte` range). -/
structure WriteBody where
  id : Option String
  data : List Nat
  extended : Bool
  rtr : Bool
deriving DecidableEq, Repr

/-- A write response: 200 success, 500 device error, 400 bad request
(the `except (KeyError, ValueError, TypeError)` branch), or an
exception escaping the handler entirely (the surrounding framework then
produces a generic 500, not the handler's 400 path). -/
inductive WriteResponse where
  | sent
  | deviceError (error : String)
  | badRequest (error : String)
  | uncaught (exc : String)
deriving DecidableEq, Repr

/-- Embedding of `write_message` (source lines 222-268).  Like the
source it has no `pcan_initialized` guard.  The ctypes `DATA` array has
8 slots for `TPCANMsg` and 64 for `TPCANMsgFD`; the assignment loop
`msg.DATA[i] = byte_val` raises `IndexError` at the first out-of-range
index, and `IndexError` is NOT among the caught exception classes, so a
payload longer than the array escapes the handler uncaught.  `devStatus`
is the status `pcan.Write`/`pcan.WriteFD` would return if reached. -/
def write_message (s : ServerState) (body : Option WriteBody)
    (devStatus : Nat) (errText : Nat → Option String) :
    WriteResponse × List DeviceCall :=
  match body with
  | none => (.badRequest "Invalid JSON body.", [])
  | some b =>
    match b.id with
    | none => (.badRequest "Invalid request format: KeyError", [])
    | some idStr =>
      match int_base16 idStr with
      | none => (.badRequest "Invalid request format: ValueError", [])
      | some idVal =>
        let msgtype :=
          PCAN_MESSAGE_STANDARD
            ||| (if b.extended then PCAN_MESSAGE_EXTENDED else 0)
            ||| (if b.rtr then PCAN_MESSAGE_RTR else 0)
        let cap := if s.IS_FD then 64 else 8
        if cap < b.data.length then
          (.uncaught "IndexError", [])
        else
          let padded := b.data ++ List.replicate (cap - b.data.length) 0
          let call :=
            if s.IS_FD then
              DeviceCall.writeFD s.PCAN_HANDLE idVal msgtype b.data.length padded
            else
              DeviceCall.write s.PCAN_HANDLE idVal msgtype b.data.length padded
          (if devStatus = PCAN_ERROR_OK then .sent
           else .deviceError (get_error_text errText devStatus), [call])

/-! ### TPMS collection state (source lines 20-21 and 51-71) -/

/-- A JSON value as the TPMS endpoints serialize it. -/
inductive JsonVal where
  | bool (b : Bool)
  | str (s : String)
  | num (n : Nat)
deriving DecidableEq, Repr

/-- Embedding of `get_tpms_status` (source lines 51-54): the response
is exactly `{"success": true, "is_collecting": active}`.  The only
collection state the server keeps is the boolean
`is_tpms_collection_active`. -/
def get_tpms_status (active : Bool) : List (String × JsonVal) :=
  [("success", JsonVal.bool true), ("is_collecting", JsonVal.bool active)]

/-- Embedding of `start_tpms_collection` (source lines 56-63): sets the
flag to `true`, reads `tire_count` from the request (default 0) only to
print it — the count is not stored anywhere — and responds.  Returns
the new flag value and the response. -/
def start_tpms_collection (_active : Bool) (tire_count : Option Nat) :
    Bool × List (String × JsonVal) :=
  let _printed := tire_count.getD 0
  (true,
   [("success", JsonVal.bool true),
    ("message", JsonVal.str "TPMS collection started."),
    ("is_collecting", JsonVal.bool true)])

/-- Embedding of `stop_tpms_collection` (source lines 65-71): sets the
flag to `false` and responds. -/
def stop_tpms_collection (_active : Bool) : Bool × List (String × JsonVal) :=
  (false,
   [("success", JsonVal.bool true),
    ("message", JsonVal.str "TPMS collection stopped."),
    ("is_collecting", JsonVal.bool false)])

/-! ### Helper lemmas -/

/-- On a payload of length at least 7 the decoder takes its `else`
branch and yields the record built from bytes 0-6. -/
theorem parse_eq_of_ge (p : List Nat) (h : 7 ≤ p.length) :
    parse_sensor_data p =
      some { sensor_id := p.getD 0 0
             packet_type := p.getD 1 0
             pressure := p.getD 2 0 <<< 8 ||| p.getD 3 0
             temperature :=
               round2 ((((p.getD 5 0 <<< 8 ||| p.getD 4 0 : Nat) : ℚ) - 8500) / 100)
             battery_watts :=
               round2 (((p.getD 6 0 * 10 + 2000 : Nat) : ℚ) / 1000) } := by
  unfold parse_sensor_data
  rw [if_neg (Nat.not_lt.2 h)]

/-- `round2` is the identity on integer multiples of `1/100`. -/
theorem round2_int_div_100 (n : ℤ) : round2 ((n : ℚ) / 100) = (n : ℚ) / 100 := by
  unfold round2
  rw [div_mul_cancel₀ _ (by norm_num : (100 : ℚ) ≠ 0), round_intCast]

/-- The decoder's temperature value in closed form: the rounding is the
identity because the value is an integer multiple of `1/100`. -/
theorem round2_temperature (t : Nat) :
    round2 (((t : ℚ) - 8500) / 100) = (((t : ℤ) - 8500 : ℤ) : ℚ) / 100 := by
  have hcast : ((t : ℚ) - 8500) = (((t : ℤ) - 8500 : ℤ) : ℚ) := by push_cast; ring
  rw [hcast, round2_int_div_100]

/-- The decoder's battery value in closed form. -/
theorem round2_battery (b : Nat) :
    round2 (((b * 10 + 2000 : Nat) : ℚ) / 1000) = ((b : ℚ) * 10 + 2000) / 1000 := by
  have h1 : ((b * 10 + 2000 : Nat) : ℚ) / 1000 = (((b : ℤ) + 200 : ℤ) : ℚ) / 100 := by
    rw [div_eq_div_iff (by norm_num) (by norm_num)]
    push_cast
    ring
  have h2 : ((b : ℚ) * 10 + 2000) / 1000 = (((b : ℤ) + 200 : ℤ) : ℚ) / 100 := by
    rw [div_eq_div_iff (by norm_num) (by norm_num)]
    push_cast
    ring
  rw [h1, round2_int_div_100, h2]

/-- Payloads agreeing on their first 7 bytes agree on every `getD i 0`
with `i < 7`. -/
theorem getD_eq_of_take_eq {p q : List Nat} (h : p.take 7 = q.take 7)
    {i : Nat} (hi : i < 7) : p.getD i 0 = q.getD i 0 := by
  have hp : p.getD i 0 = (p.take 7).getD i 0 := by
    rw [List.getD_eq_getD_get?, List.getD_eq_getD_get?, List.get?_eq_getElem?,
      List.get?_eq_getElem?, List.getElem?_take_of_lt hi]
  have hq : q.getD i 0 = (q.take 7).getD i 0 := by
    rw [List.getD_eq_getD_get?, List.getD_eq_getD_get?, List.get?_eq_getElem?,
      List.get?_eq_getElem?, List.getElem?_take_of_lt hi]
  rw [hp, hq, h]

/-! ### Claim theorems -/

/-- Claim C2: for every byte sequence `p`, `parse_sensor_data` returns
`none` iff `p` has fewer than 7 bytes; for every `p` with at least
7 bytes it returns some reading; and decoding is deterministic —
decoding the same payload twice yields equal readings.  Side-effect
freedom holds by construction: the decoder is embedded as a pure
function of the payload alone, exactly as the source reads no state
besides its argument. -/
theorem parse_none_iff_short (p : List Nat) :
    (parse_sensor_data p = none ↔ p.length < 7) ∧
    (7 ≤ p.length → ∃ r, parse_sensor_data p = some r) ∧
    parse_sensor_data p = parse_sensor_data p := by
  refine ⟨?_, ?_, rfl⟩
  · by_cases hl : p.length < 7
    · simp [parse_sensor_data, hl]
    · rw [parse_eq_of_ge p (Nat.not_lt.1 hl)]
      simp [hl]
  · intro h
    exact ⟨_, parse_eq_of_ge p h⟩

/-- Witness for C2: the 7-byte payload `[1,2,3,4,5,6,7]` decodes to
some reading. -/
theorem parse_none_iff_short_witness :
    ∃ r, parse_sensor_data [1, 2, 3, 4, 5, 6, 7] = some r :=
  (parse_none_iff_short [1, 2, 3, 4, 5, 6, 7]).2.1 (by norm_num)

/-- Claim C3: for every payload of length at least 7 with bytes in
`0..255`, the decoded temperature is exactly
`((p[5] <<< 8 ||| p[4]) - 8500) / 100` (its own rounding to two decimal
places, being an integer multiple of `1/100`); `p[4] = p[5] = 0` gives
`-85.00`, `temp_raw = 8500` gives `0.00`, and `temp_raw < 8500` gives a
negative temperature. -/
theorem parse_temperature_formula (p : List Nat) (h7 : 7 ≤ p.length)
    (_hb : ∀ b ∈ p, b ≤ 255) :
    ∃ r, parse_sensor_data p = some r ∧
      r.temperature = ((((p.getD 5 0 <<< 8 ||| p.getD 4 0 : Nat) : ℤ) - 8500 : ℤ) : ℚ) / 100 ∧
      (p.getD 4 0 = 0 → p.getD 5 0 = 0 → r.temperature = -85) ∧
      ((p.getD 5 0 <<< 8 ||| p.getD 4 0 : Nat) = 8500 → r.temperature = 0) ∧
      ((p.getD 5 0 <<< 8 ||| p.getD 4 0 : Nat) < 8500 → r.temperature < 0) := by
  refine ⟨_, parse_eq_of_ge p h7, ?_, ?_, ?_, ?_⟩
  · exact round2_temperature _
  · intro h4 h5
    rw [round2_temperature]
    rw [h4, h5]
    norm_num
  · intro h
    rw [round2_temperature, h]
    norm_num
  · intro h
    rw [round2_temperature]
    have hneg : ((p.getD 5 0 <<< 8 ||| p.getD 4 0 : Nat) : ℤ) - 8500 < 0 := by
      have : ((p.getD 5 0 <<< 8 ||| p.getD 4 0 : Nat) : ℤ) < 8500 := by
        exact_mod_cast h
      omega
    apply div_neg_of_neg_of_pos
    · exact_mod_cast hneg
    · norm_num

/-- Witness for C3: the all-zero 7-byte payload has length 7, bytes in
range, and its decoded temperature is `-85`. -/
theorem parse_temperature_formula_witness :
    ∃ r, parse_sensor_data [0, 0, 0, 0, 0, 0, 0] = some r ∧
      r.temperature = ((((List.getD [0, 0, 0, 0, 0, 0, 0] 5 0 <<< 8 |||
        List.getD [0, 0, 0, 0, 0, 0, 0] 4 0 : Nat) : ℤ) - 8500 : ℤ) : ℚ) / 100 ∧
      (List.getD [0, 0, 0, 0, 0, 0, 0] 4 0 = 0 →
        List.getD [0, 0, 0, 0, 0, 0, 0] 5 0 = 0 → r.temperature = -85) ∧
      ((List.getD [0, 0, 0, 0, 0, 0, 0] 5 0 <<< 8 |||
        List.getD [0, 0, 0, 0, 0, 0, 0] 4 0 : Nat) = 8500 → r.temperature = 0) ∧
      ((List.getD [0, 0, 0, 0, 0, 0, 0] 5 0 <<< 8 |||
        List.getD [0, 0, 0, 0, 0, 0, 0] 4 0 : Nat) < 8500 → r.temperature < 0) :=
  parse_temperature_formula [0, 0, 0, 0, 0, 0, 0] (by norm_num) (by decide)

/-- Claim C9: for every payload of length at least 7 with bytes in
`0..255`, the decoded battery value is exactly
`(p[6] * 10 + 2000) / 1000` (its own rounding to two decimal places);
`p[6] = 0` gives `2.00` and `p[6] = 255` gives `4.55`. -/
theorem parse_battery_formula (p : List Nat) (h7 : 7 ≤ p.length)
    (_hb : ∀ b ∈ p, b ≤ 255) :
    ∃ r, parse_sensor_data p = some r ∧
      r.battery_watts = ((p.getD 6 0 : ℚ) * 10 + 2000) / 1000 ∧
      (p.getD 6 0 = 0 → r.battery_watts = 2) ∧
      (p.getD 6 0 = 255 → r.battery_watts = 455 / 100) := by
  refine ⟨_, parse_eq_of_ge p h7, ?_, ?_, ?_⟩
  · exact round2_battery _
  · intro h
    rw [round2_battery, h]
    norm_num
  · intro h
    rw [round2_battery, h]
    norm_num

/-- Witness for C9: the payload `[1,2,3,4,5,6,255]` has length 7, bytes
in range, and its decoded battery value is `4.55`. -/
theorem parse_battery_formula_witness :
    ∃ r, parse_sensor_data [1, 2, 3, 4, 5, 6, 255] = some r ∧
      r.battery_watts = ((List.getD [1, 2, 3, 4, 5, 6, 255] 6 0 : ℚ) * 10 + 2000) / 1000 ∧
      (List.getD [1, 2, 3, 4, 5, 6, 255] 6 0 = 0 → r.battery_watts = 2) ∧
      (List.getD [1, 2, 3, 4, 5, 6, 255] 6 0 = 255 → r.battery_watts = 455 / 100) :=
  parse_battery_formula [1, 2, 3, 4, 5, 6, 255] (by norm_num) (by decide)

/-- Claim C10: the decode result depends only on the first 7 bytes of
the payload — two payloads of length at least 7 agreeing on bytes 0-6
decode to equal readings. -/
theorem parse_depends_on_first_seven (p q : List Nat) (hp : 7 ≤ p.length)
    (hq : 7 ≤ q.length) (h : p.take 7 = q.take 7) :
    parse_sensor_data p = parse_sensor_data q := by
  rw [parse_eq_of_ge p hp, parse_eq_of_ge q hq,
    getD_eq_of_take_eq h (by norm_num : (0 : Nat) < 7),
    getD_eq_of_take_eq h (by norm_num : (1 : Nat) < 7),
    getD_eq_of_take_eq h (by norm_num : (2 : Nat) < 7),
    getD_eq_of_take_eq h (by norm_num : (3 : Nat) < 7),
    getD_eq_of_take_eq h (by norm_num : (4 : Nat) < 7),
    getD_eq_of_take_eq h (by norm_num : (5 : Nat) < 7),
    getD_eq_of_take_eq h (by norm_num : (6 : Nat) < 7)]

/-- Witness for C10: an 8-byte and a 9-byte payload agreeing on bytes
0-6 decode identically. -/
theorem parse_depends_on_first_seven_witness :
    parse_sensor_data [9, 8, 7, 6, 5, 4, 3, 200] =
      parse_sensor_data [9, 8, 7, 6, 5, 4, 3, 77, 123] :=
  parse_depends_on_first_seven _ _ (by norm_num) (by norm_num) (by decide)

/-- Claim C4: for every classic device timestamp the reconstructed
`timestamp_us` is `micros + 1000*millis + 2^32*1000*millis_overflow`;
every FD timestamp's 64-bit microsecond counter is returned directly;
and a successful read reports exactly this normalized value as
`timestamp_us`, so both paths yield the same microsecond unit. -/
theorem read_timestamp_normalization (s : ServerState) (dev : ReadResult)
    (errText : Nat → Option String) (hok : dev.status = PCAN_ERROR_OK) :
    respTimestamp (read_message s dev errText).1 = some (ts_value dev.timestamp) ∧
    (∀ micros millis millis_overflow : Nat,
      ts_value (.classic micros millis millis_overflow) =
        micros + 1000 * millis + 2 ^ 32 * 1000 * millis_overflow) ∧
    (∀ v : Nat, ts_value (.fd v) = v) := by
  refine ⟨?_, fun _ _ _ => rfl, fun _ => rfl⟩
  have hne : ¬ dev.status = PCAN_ERROR_QRCVEMPTY := by
    rw [hok]
    decide
  simp [read_message, hne, hok, respTimestamp, PCAN_ERROR_OK, PCAN_ERROR_QRCVEMPTY]

/-- Witness for C4: a concrete successful classic read reports the
reconstructed timestamp. -/
theorem read_timestamp_normalization_witness :
    respTimestamp
        (read_message initial_state
          { status := PCAN_ERROR_OK
            msg := { ID := 0x123, MSGTYPE := 0, LEN := 2, DLC := 0, DATA := [1, 2, 0, 0, 0, 0, 0, 0] }
            timestamp := .classic 250 7 2 }
          (fun _ => none)).1 =
      some (ts_value (.classic 250 7 2)) :=
  (read_timestamp_normalization initial_state
    { status := PCAN_ERROR_OK
      msg := { ID := 0x123, MSGTYPE := 0, LEN := 2, DLC := 0, DATA := [1, 2, 0, 0, 0, 0, 0, 0] }
      timestamp := .classic 250 7 2 }
    (fun _ => none) rfl).1

/-- Claim C5: every init request whose body sets `is_fd` to true gets
the 501 NotImplemented response, regardless of the channel and baudrate
fields, and no device call is made. -/
theorem init_fd_not_implemented (b : InitBody) (s : ServerState)
    (devStatus : Nat) (errText : Nat → Option String)
    (hfd : b.is_fd = some true) :
    (init_can (some b) s devStatus errText).1 =
      InitResponse.err
        "CAN-FD Initialization is not fully implemented in this example." 501 ∧
    (init_can (some b) s devStatus errText).2.2 = [] := by
  have heff : init_effective_fd (some b) s = true := by
    simp [init_effective_fd, hfd]
  simp [init_can, heff]

/-- Witness for C5: a concrete FD init request with explicit channel
and baudrate fields is answered 501 with no device call. -/
theorem init_fd_not_implemented_witness :
    (init_can (some { channel := some "PCAN_USBBUS2", baudrate := some "PCAN_BAUD_250K", is_fd := some true })
        initial_state 0 (fun _ => none)).1 =
      InitResponse.err
        "CAN-FD Initialization is not fully implemented in this example." 501 ∧
    (init_can (some { channel := some "PCAN_USBBUS2", baudrate := some "PCAN_BAUD_250K", is_fd := some true })
        initial_state 0 (fun _ => none)).2.2 = [] :=
  init_fd_not_implemented _ initial_state 0 (fun _ => none) rfl

/-- Claim C8: every classic-mode init call invokes the device with the
resolved numeric handle and baudrate; if the device answers OK the
state becomes Ready (`pcan_initialized = true`) and the resolved handle
is recorded in the config; on any non-OK status the state is left
Uninitialized (`pcan_initialized = false`) and the decoded device error
text is returned with a 500. -/
theorem init_classic_transitions (body : Option InitBody) (s : ServerState)
    (devStatus : Nat) (errText : Nat → Option String)
    (hfd : init_effective_fd body s = false) :
    (init_can body s devStatus errText).2.2 =
      [DeviceCall.init (init_resolved_handle body s) (init_resolved_baud body s)] ∧
    (devStatus = PCAN_ERROR_OK →
      (init_can body s devStatus errText).2.1.pcan_initialized = true ∧
      (init_can body s devStatus errText).2.1.PCAN_HANDLE =
        init_resolved_handle body s ∧
      (init_can body s devStatus errText).1 =
        InitResponse.ok ("Channel " ++ padHex 2 (init_resolved_handle body s) ++
          "h initialized successfully at the specified baudrate.")) ∧
    (devStatus ≠ PCAN_ERROR_OK →
      (init_can body s devStatus errText).2.1.pcan_initialized = false ∧
      (init_can body s devStatus errText).1 =
        InitResponse.err (get_error_text errText devStatus) 500) := by
  by_cases hok : devStatus = PCAN_ERROR_OK
  · refine ⟨?_, fun _ => ⟨?_, ?_, ?_⟩, fun hne => absurd hok hne⟩ <;>
      simp [init_can, hfd, hok]
  · refine ⟨?_, fun h => absurd h hok, fun _ => ⟨?_, ?_⟩⟩ <;>
      simp [init_can, hfd, hok]

/-- Witness for C8: two concrete classic init calls from the initial
state with no body — one where the device reports OK (state becomes
Ready, handle recorded) and one where it reports status 5 (state left
Uninitialized, decoded error text returned). -/
theorem init_classic_transitions_witness :
    ((init_can none initial_state PCAN_ERROR_OK (fun _ => some "OK")).2.2 =
        [DeviceCall.init (init_resolved_handle none initial_state)
          (init_resolved_baud none initial_state)] ∧
      (PCAN_ERROR_OK = PCAN_ERROR_OK →
        (init_can none initial_state PCAN_ERROR_OK (fun _ => some "OK")).2.1.pcan_initialized = true ∧
        (init_can none initial_state PCAN_ERROR_OK (fun _ => some "OK")).2.1.PCAN_HANDLE =
          init_resolved_handle none initial_state ∧
        (init_can none initial_state PCAN_ERROR_OK (fun _ => some "OK")).1 =
          InitResponse.ok ("Channel " ++ padHex 2 (init_resolved_handle none initial_state) ++
            "h initialized successfully at the specified baudrate.")) ∧
      (PCAN_ERROR_OK ≠ PCAN_ERROR_OK →
        (init_can none initial_state PCAN_ERROR_OK (fun _ => some "OK")).2.1.pcan_initialized = false ∧
        (init_can none initial_state PCAN_ERROR_OK (fun _ => some "OK")).1 =
          InitResponse.err (get_error_text (fun _ => some "OK") PCAN_ERROR_OK) 500)) ∧
    ((init_can none initial_state 5 (fun _ => some "Hardware error")).2.2 =
        [DeviceCall.init (init_resolved_handle none initial_state)
          (init_resolved_baud none initial_state)] ∧
      ((5 : Nat) = PCAN_ERROR_OK →
        (init_can none initial_state 5 (fun _ => some "Hardware error")).2.1.pcan_initialized = true ∧
        (init_can none initial_state 5 (fun _ => some "Hardware error")).2.1.PCAN_HANDLE =
          init_resolved_handle none initial_state ∧
        (init_can none initial_state 5 (fun _ => some "Hardware error")).1 =
          InitResponse.ok ("Channel " ++ padHex 2 (init_resolved_handle none initial_state) ++
            "h initialized successfully at the specified baudrate.")) ∧
      ((5 : Nat) ≠ PCAN_ERROR_OK →
        (init_can none initial_state 5 (fun _ => some "Hardware error")).2.1.pcan_initialized = false ∧
        (init_can none initial_state 5 (fun _ => some "Hardware error")).1 =
          InitResponse.err (get_error_text (fun _ => some "Hardware error") 5) 500)) :=
  ⟨init_classic_transitions none initial_state PCAN_ERROR_OK (fun _ => some "OK") rfl,
   init_classic_transitions none initial_state 5 (fun _ => some "Hardware error") rfl⟩

/-- Claim C1 (code evidence): the source guards neither `read_message`
nor `write_message` on `pcan_initialized`.  From the initial state,
whose `pcan_initialized` is `false`, the read handler still issues
`pcan.Read` on the current handle for every device result, and the
write handler (body `{id: "100", data: [1,2,3]}`) still issues
`pcan.Write` for every device status — indeed when the device reports
OK the uninitialized write is answered with plain success, not with any
not-initialized error. -/
theorem read_write_forward_while_uninitialized :
    ∀ (dev : ReadResult) (errText : Nat → Option String) (devStatus : Nat),
      initial_state.pcan_initialized = false ∧
      (read_message initial_state dev errText).2 = [DeviceCall.read PCAN_USBBUS1] ∧
      (write_message initial_state
          (some { id := some "100", data := [1, 2, 3], extended := false, rtr := false })
          devStatus errText).2 =
        [DeviceCall.write PCAN_USBBUS1 256 PCAN_MESSAGE_STANDARD 3
          [1, 2, 3, 0, 0, 0, 0, 0]] ∧
      (write_message initial_state
          (some { id := some "100", data := [1, 2, 3], extended := false, rtr := false })
          PCAN_ERROR_OK errText).1 = WriteResponse.sent :=
  fun _ _ _ => ⟨rfl, rfl, rfl, rfl⟩

/-- Claim C6 (code evidence): a classic-mode write whose `data` has 9
bytes (id `"1FF"`, `extended = false`) is not rejected with the 400
`InvalidFormat` path: the `msg.DATA[8]` assignment raises `IndexError`,
which the handler's `except (KeyError, ValueError, TypeError)` does not
catch, so the exception escapes the handler; no device write call is
made.  This holds for every classic-mode state and device status. -/
theorem write_nine_bytes_classic_uncaught :
    ∀ (handle baud : Nat) (ini : Bool) (devStatus : Nat)
      (errText : Nat → Option String),
      write_message
          { PCAN_HANDLE := handle, BAUDRATE := baud, IS_FD := false,
            pcan_initialized := ini }
          (some { id := some "1FF", data := [1, 2, 3, 4, 5, 6, 7, 8, 9],
                  extended := false, rtr := false })
          devStatus errText =
        (WriteResponse.uncaught "IndexError", []) :=
  fun _ _ _ _ _ => rfl

/-- Claim C7 (counterexample): the server stores no tire count and its
status endpoint reports none.  After `start` with `tire_count = 4` —
and equally after a subsequent `stop` — the status response has no
`tire_count` key at all, so in particular it does not report a tire
count of 4 as the claim states. -/
theorem tpms_status_reports_no_tire_count :
    ((get_tpms_status (start_tpms_collection false (some 4)).1).lookup
        "tire_count" = none ∧
      ¬ (get_tpms_status (start_tpms_collection false (some 4)).1).lookup
          "tire_count" = some (JsonVal.num 4)) ∧
    ((get_tpms_status
          (stop_tpms_collection (start_tpms_collection false (some 4)).1).1).lookup
        "tire_count" = none ∧
      ¬ (get_tpms_status
            (stop_tpms_collection (start_tpms_collection false (some 4)).1).1).lookup
          "tire_count" = some (JsonVal.num 4)) := by
  decide

/-- Claim C7 (amended): `start` sets the collection flag, `stop` clears
it, and `status` reports exactly `{success: true, is_collecting: flag}`
— the tire count from the start request is read but neither stored nor
ever reported. -/
theorem tpms_start_stop_status_amended (s0 : Bool) (n : Option Nat) :
    get_tpms_status (start_tpms_collection s0 n).1 =
      [("success", JsonVal.bool true), ("is_collecting", JsonVal.bool true)] ∧
    get_tpms_status (stop_tpms_collection (start_tpms_collection s0 n).1).1 =
      [("success", JsonVal.bool true), ("is_collecting", JsonVal.bool false)] :=
  ⟨rfl, rfl⟩
